import Mathlib

/-
Verification of the bus seat-booking engine: a shallow embedding of
`models/bus.py` (seat generation, route search, seat booking) and
`services/bus_service.py` (booking orchestration), with theorems checking
the specified invariants, frame conditions and error behaviour.
-/

namespace BusBooking

/-- Seat status enumeration from `schemas/bus.py` (`SeatStatus`). -/
inductive SeatStatus where
  | available
  | booked
  | reserved
deriving DecidableEq

/-- One seat document, as built in `BusModel._generate_seats` and read in
`BusModel.book_seats`.  The only prices the code ever creates are the integral
constant 500.0 and sums of such constants, on which Python float arithmetic is
exact, so integers are a faithful model of the price arithmetic that actually
occurs. -/
structure Seat where
  seat_number : String
  seat_type : String
  price : Int
  status : SeatStatus
  passenger_name : Option String
  passenger_email : Option String
deriving DecidableEq

/-- A timezone-naive `datetime.datetime` value, to whole seconds.  BSON / Python
datetime comparison is chronological, i.e. lexicographic on these fields. -/
structure PyDateTime where
  year : Nat
  month : Nat
  day : Nat
  hour : Nat
  minute : Nat
  second : Nat
deriving DecidableEq

/-- Strict chronological comparison of datetimes (lexicographic). -/
def dtLt (a b : PyDateTime) : Bool :=
  if a.year < b.year then true else if b.year < a.year then false
  else if a.month < b.month then true else if b.month < a.month then false
  else if a.day < b.day then true else if b.day < a.day then false
  else if a.hour < b.hour then true else if b.hour < a.hour then false
  else if a.minute < b.minute then true else if b.minute < a.minute then false
  else decide (a.second < b.second)

/-- Non-strict chronological comparison of datetimes. -/
def dtLe (a b : PyDateTime) : Bool := !(dtLt b a)

/-- The stored trip ("bus") document, as created by `BusModel.create_bus`. -/
structure Bus where
  bus_number : String
  bus_name : String
  bus_type : String
  source : String
  destination : String
  departure_time : PyDateTime
  arrival_time : PyDateTime
  total_seats : Nat
  seats : List Seat
  available_seats : Int
  booked_seats : Int
  created_at : PyDateTime
deriving DecidableEq

/-- The validated creation payload (`schemas/bus.py`, `BusCreate`); its `seats`
field defaults to the empty list when the caller supplies none. -/
structure BusCreate where
  bus_number : String
  bus_name : String
  bus_type : String
  source : String
  destination : String
  departure_time : PyDateTime
  arrival_time : PyDateTime
  total_seats : Nat
  seats : List Seat
deriving DecidableEq

/-- The `seat_types` list of `BusModel._generate_seats`. -/
def seat_types : List String := ["window", "aisle", "aisle", "window"]

/-- One generated seat dictionary of `BusModel._generate_seats`: seat number
`f"{chr(64 + row)}{col}"`, class `seat_types[col - 1]`, price 500.0, status
available, no passenger data. -/
def mkSeat (row col : Nat) : Seat :=
  { seat_number := String.mk [Char.ofNat (64 + row)] ++ toString col,
    seat_type := seat_types.getD (col - 1) "",
    price := 500,
    status := SeatStatus.available,
    passenger_name := none,
    passenger_email := none }

/-- The inner loop `for col in range(1, 5)`: the four seats of one row. -/
def rowSeats (row : Nat) : List Seat := (List.range' 1 4).map (mkSeat row)

/-- The outer loop `for row in range(1, rows + 1)`: seats of the first `rows`
rows, in emission order. -/
def genRows : Nat → List Seat
  | 0 => []
  | r + 1 => genRows r ++ rowSeats (r + 1)

/-- `BusModel._generate_seats`: `rows = total_seats // 4` full rows of four. -/
def generate_seats (total_seats : Nat) : List Seat := genRows (total_seats / 4)

/-- `BusModel.create_bus`: generate seats when the payload carries none (the
Python truthiness test `not bus_data.get("seats")` is exactly emptiness for the
schema-defaulted list), then initialise the counters.  `datetime.now()` is the
parameter `now`; the returned ObjectId is not modelled. -/
def create_bus (b : BusCreate) (now : PyDateTime) : Bus :=
  { bus_number := b.bus_number,
    bus_name := b.bus_name,
    bus_type := b.bus_type,
    source := b.source,
    destination := b.destination,
    departure_time := b.departure_time,
    arrival_time := b.arrival_time,
    total_seats := b.total_seats,
    seats := if b.seats.isEmpty then generate_seats b.total_seats else b.seats,
    available_seats := (b.total_seats : Int),
    booked_seats := 0,
    created_at := now }

/-- `next((s for s in bus["seats"] if s["seat_number"] == seat_number), None)`:
first seat with the requested number. -/
def findSeat (seats : List Seat) (n : String) : Option Seat :=
  seats.find? (fun s => s.seat_number == n)

/-- The pre-check loop of `BusModel.book_seats`: walk the requested numbers in
order; report the first seat that is missing or not available, `none` when all
pass. -/
def checkSeats (seats : List Seat) : List String → Option String
  | [] => none
  | n :: rest =>
      match findSeat seats n with
      | none => some ("Seat " ++ n ++ " not found")
      | some s =>
          if s.status ≠ SeatStatus.available then
            some ("Seat " ++ n ++ " is not available")
          else checkSeats seats rest

/-- The `$set` applied to one matched array element: status booked, passenger
name and email attached. -/
def bookSeatUpdate (pn pe : String) (s : Seat) : Seat :=
  { s with status := SeatStatus.booked,
           passenger_name := some pn,
           passenger_email := some pe }

/-- The document produced by the conditional `update_one` of
`BusModel.book_seats`: every seat whose number is in the request (the
`array_filters` `$in` predicate) is booked for the passenger, and the counters
move by the length of the request list. -/
def updateBus (bus : Bus) (ns : List String) (pn pe : String) : Bus :=
  { bus with
      seats := bus.seats.map
        (fun s => if ns.contains s.seat_number then bookSeatUpdate pn pe s else s),
      available_seats := bus.available_seats - ns.length,
      booked_seats := bus.booked_seats + ns.length }

/-- `BusModel.book_seats`.  The state is the single addressed trip (`none`
models an absent document).  `update_result.modified_count > 0` is modelled
faithfully to MongoDB as: the updated document differs from the stored one. -/
def book_seats (bus? : Option Bus) (ns : List String) (pn pe : String) :
    (Bool × String) × Option Bus :=
  match bus? with
  | none => ((false, "Bus not found"), none)
  | some bus =>
      match checkSeats bus.seats ns with
      | some msg => ((false, msg), some bus)
      | none =>
          let newBus := updateBus bus ns pn pe
          ((decide (¬ newBus = bus), "Booking successful"), some newBus)

/-- Response value of `BusService.book_tickets` (`BookingResponse`). -/
structure BookingResponse where
  booking_id : String
  bus_id : String
  bus_number : String
  source : String
  destination : String
  departure_time : PyDateTime
  seat_numbers : List String
  passenger_name : String
  passenger_email : String
  passenger_phone : String
  total_amount : Int
  booking_status : String
  booked_at : PyDateTime
deriving DecidableEq

/-- `BusService.book_tickets`: delegate to `book_seats`; on failure raise
HTTP 400 with the failure message (modelled as `Except.error`); on success
re-read the trip, sum the prices of its seats whose numbers are in the
request, and build the confirmed booking.  `str(ObjectId())` and
`datetime.now()` are the parameters `freshId` and `now`.  The inner `none`
branch is unreachable: a successful `book_seats` always leaves the trip in
place (Python would crash there on the re-read). -/
def book_tickets (bus? : Option Bus) (bus_id : String) (ns : List String)
    (pn pe pp : String) (freshId : String) (now : PyDateTime) :
    Except String BookingResponse × Option Bus :=
  match book_seats bus? ns pn pe with
  | ((false, msg), st) => (Except.error msg, st)
  | ((true, _), st) =>
      match st with
      | none => (Except.error "Bus not found", none)
      | some bus2 =>
          let total :=
            ((bus2.seats.filter (fun s => ns.contains s.seat_number)).map Seat.price).sum
          (Except.ok
            { booking_id := freshId,
              bus_id := bus_id,
              bus_number := bus2.bus_number,
              source := bus2.source,
              destination := bus2.destination,
              departure_time := bus2.departure_time,
              seat_numbers := ns,
              passenger_name := pn,
              passenger_email := pe,
              passenger_phone := pp,
              total_amount := total,
              booking_status := "confirmed",
              booked_at := now },
            some bus2)

/-- Numeric value of an ASCII digit character. -/
def digitVal (c : Char) : Nat := c.toNat - 48

/-- Gregorian leap-year test, as used by `datetime`. -/
def isLeapYear (y : Nat) : Bool := y % 4 == 0 && (y % 100 != 0 || y % 400 == 0)

/-- Length of a month, as validated by the `datetime.datetime` constructor. -/
def daysInMonth (y m : Nat) : Nat :=
  if m = 2 then (if isLeapYear y then 29 else 28)
  else if m = 4 ∨ m = 6 ∨ m = 9 ∨ m = 11 then 30
  else 31

/-- The `%d` field of `strptime`: one or two digits (range checked later). -/
def parseDayChars : List Char → Option Nat
  | [d1, d2] =>
      if d1.isDigit && d2.isDigit then some (10 * digitVal d1 + digitVal d2) else none
  | [d1] => if d1.isDigit then some (digitVal d1) else none
  | _ => none

/-- The `%m-%d` tail of the format: a one- or two-digit month, a literal dash,
then the day field consuming the rest of the string. -/
def parseMonthDay : List Char → Option (Nat × Nat)
  | m1 :: m2 :: '-' :: ds =>
      if m1.isDigit && m2.isDigit then
        (parseDayChars ds).map (fun d => (10 * digitVal m1 + digitVal m2, d))
      else none
  | m1 :: '-' :: ds =>
      if m1.isDigit then (parseDayChars ds).map (fun d => (digitVal m1, d)) else none
  | _ => none

/-- `datetime.datetime.strptime(travel_date, "%Y-%m-%d")`: a four-digit year,
a dash, a month, a dash, a day, nothing left over, and the resulting
year/month/day accepted by the `datetime` constructor (year at least 1, month
1..12, day within the month).  `none` models the raised `ValueError`. -/
def parseTravelDate (s : String) : Option (Nat × Nat × Nat) :=
  match s.toList with
  | y1 :: y2 :: y3 :: y4 :: '-' :: rest =>
      if y1.isDigit && y2.isDigit && y3.isDigit && y4.isDigit then
        match parseMonthDay rest with
        | some (m, d) =>
            let y := 1000 * digitVal y1 + 100 * digitVal y2 + 10 * digitVal y3 + digitVal y4
            if 1 ≤ y ∧ 1 ≤ m ∧ m ≤ 12 ∧ 1 ≤ d ∧ d ≤ daysInMonth y m then
              some (y, m, d)
            else none
        | none => none
      else none
  | _ => none

/-- `travel_datetime + datetime.timedelta(days=1)` applied to a midnight value:
the calendar-correct next day. -/
def nextDay (y m d : Nat) : Nat × Nat × Nat :=
  if d < daysInMonth y m then (y, m, d + 1)
  else if m < 12 then (y, m + 1, 1)
  else (y + 1, 1, 1)

/-- Midnight of a (year, month, day) triple. -/
def atMidnight (ymd : Nat × Nat × Nat) : PyDateTime :=
  ⟨ymd.1, ymd.2.1, ymd.2.2, 0, 0, 0⟩

/-- One step of the anchored case-insensitive regex match: the `.` wildcard
accepts any character, any other pattern character compares
ASCII-case-insensitively. -/
def charMatchCI (p t : Char) : Bool :=
  if p = '.' then true else p.toLower == t.toLower

/-- MongoDB evaluates the search filter `{"$regex": f"^{source}$",
"$options": "i"}` as an anchored case-insensitive PCRE match.  This models the
fragment of PCRE this development exercises: a pattern of literal characters
and the `.` wildcard must match the whole text character by character (the
PCRE `$`-before-a-trailing-newline subtlety is not modelled). -/
def regexMatchCI : List Char → List Char → Bool
  | [], [] => true
  | [], _ :: _ => false
  | _ :: _, [] => false
  | p :: ps, t :: ts => charMatchCI p t && regexMatchCI ps ts

/-- The PCRE metacharacters.  On a pattern containing none of them the
anchored match above is faithful to full PCRE and coincides with
case-insensitive string equality. -/
def regexMetachars : List Char :=
  ['.', '^', '$', '*', '+', '?', '(', ')', '[', ']', '\x7b', '\x7d', '|', '\\']

/-- A string free of PCRE metacharacters. -/
def regexMetaFree (s : String) : Bool :=
  s.toList.all (fun c => !(regexMetachars.contains c))

/-- Modelled from the spec: "case-insensitive exact matching on
source/destination" — plain case-insensitive string equality (ASCII folding),
to be compared against the regex matching the code performs. -/
abbrev ciEq (a b : String) : Prop :=
  a.toList.map Char.toLower = b.toList.map Char.toLower

/-- The document filter of `BusModel.search_buses`: both route regexes match
and `departure_time` lies in `[lo, hi)` (`$gte` / `$lt`). -/
def busMatches (source destination : String) (lo hi : PyDateTime) (b : Bus) : Bool :=
  regexMatchCI source.toList b.source.toList &&
  regexMatchCI destination.toList b.destination.toList &&
  dtLe lo b.departure_time && dtLt b.departure_time hi

/-- `BusModel.search_buses` over the stored trips: parse the travel date,
filter by the route regexes and the half-open one-day departure window; any
exception (in particular a `strptime` failure on a malformed date) is caught
and yields the empty list. -/
def search_buses (buses : List Bus) (source destination travel_date : String) :
    List Bus :=
  match parseTravelDate travel_date with
  | none => []
  | some ymd =>
      buses.filter
        (busMatches source destination (atMidnight ymd)
          (atMidnight (nextDay ymd.1 ymd.2.1 ymd.2.2)))

/-! ### Concrete fixtures reachable through the public operations -/

/-- A trip-creation payload with four seats and no caller-supplied seat list. -/
def busCreate4 : BusCreate :=
  { bus_number := "BUS001", bus_name := "Express Travels", bus_type := "ac",
    source := "NYC", destination := "Boston",
    departure_time := ⟨2024, 1, 15, 10, 0, 0⟩,
    arrival_time := ⟨2024, 1, 15, 14, 0, 0⟩,
    total_seats := 4, seats := [] }

/-- The same payload with a five-seat capacity (the schema allows any count
in 1..100, with no divisibility constraint). -/
def busCreate5 : BusCreate :=
  { bus_number := "BUS002", bus_name := "Express Travels", bus_type := "ac",
    source := "NYC", destination := "Boston",
    departure_time := ⟨2024, 1, 15, 10, 0, 0⟩,
    arrival_time := ⟨2024, 1, 15, 14, 0, 0⟩,
    total_seats := 5, seats := [] }

/-- A fixed creation instant. -/
def t0 : PyDateTime := ⟨2024, 1, 1, 0, 0, 0⟩

/-- The four-seat trip as stored after `create_bus`. -/
def busG4 : Bus := create_bus busCreate4 t0

/-- The same trip after a successful booking of seat "A1". -/
def busG4A1 : Bus :=
  ((book_seats (some busG4) ["A1"] "John Doe" "john@example.com").2).getD busG4

/-! ### Lemmas about the booking pre-checks and the conditional update -/

/-- When every requested number finds a seat and every found seat is
available, the pre-check loop passes. -/
theorem checkSeats_none_of_forall (seats : List Seat) (ns : List String)
    (h : ∀ n ∈ ns, ∃ s, findSeat seats n = some s ∧ s.status = SeatStatus.available) :
    checkSeats seats ns = none := by
  induction ns with
  | nil => rfl
  | cons n rest ih =>
      obtain ⟨s, hfind, hstat⟩ := h n (List.mem_cons_self n rest)
      simp only [checkSeats, hfind]
      rw [if_neg (by simp [hstat])]
      exact ih (fun m hm => h m (List.mem_cons_of_mem n hm))

/-- The pre-check loop stops at the first seat that exists but is not
available, whatever comes after it in the request. -/
theorem checkSeats_append_unavailable (seats : List Seat) (pre post : List String)
    (n : String) (s : Seat)
    (hpre : ∀ m ∈ pre, ∃ t, findSeat seats m = some t ∧ t.status = SeatStatus.available)
    (hfind : findSeat seats n = some s) (hstat : s.status ≠ SeatStatus.available) :
    checkSeats seats (pre ++ n :: post) = some ("Seat " ++ n ++ " is not available") := by
  induction pre with
  | nil =>
      simp only [List.nil_append, checkSeats, hfind]
      rw [if_pos hstat]
  | cons m rest ih =>
      obtain ⟨t, hfindm, hstatm⟩ := hpre m (List.mem_cons_self m rest)
      simp only [List.cons_append, checkSeats, hfindm]
      rw [if_neg (by simp [hstatm])]
      exact ih (fun k hk => hpre k (List.mem_cons_of_mem m hk))

/-- The pre-check loop stops at the first seat number that does not occur in
the trip, whatever comes after it in the request. -/
theorem checkSeats_append_notfound (seats : List Seat) (pre post : List String)
    (n : String)
    (hpre : ∀ m ∈ pre, ∃ t, findSeat seats m = some t ∧ t.status = SeatStatus.available)
    (hmiss : findSeat seats n = none) :
    checkSeats seats (pre ++ n :: post) = some ("Seat " ++ n ++ " not found") := by
  induction pre with
  | nil => simp only [List.nil_append, checkSeats, hmiss]
  | cons m rest ih =>
      obtain ⟨t, hfindm, hstatm⟩ := hpre m (List.mem_cons_self m rest)
      simp only [List.cons_append, checkSeats, hfindm]
      rw [if_neg (by simp [hstatm])]
      exact ih (fun k hk => hpre k (List.mem_cons_of_mem m hk))

/-- When some requested seat is currently available, the conditional update
changes the document (so `modified_count > 0`). -/
theorem updateBus_ne (bus : Bus) (ns : List String) (pn pe : String)
    (n : String) (hn : n ∈ ns) (s : Seat)
    (hfind : findSeat bus.seats n = some s) (hstat : s.status = SeatStatus.available) :
    ¬ updateBus bus ns pn pe = bus := by
  intro heq
  have hseats := congrArg Bus.seats heq
  simp only [updateBus] at hseats
  have hs_mem : s ∈ bus.seats := List.mem_of_find?_eq_some hfind
  have hs_num : s.seat_number = n := by
    have h1 := List.find?_some hfind
    exact eq_of_beq h1
  have hcont : ns.contains s.seat_number = true := by
    rw [hs_num]; exact List.elem_eq_true_of_mem hn
  obtain ⟨i, hi, hget⟩ := List.mem_iff_getElem.mp hs_mem
  have h2 := List.getElem?_map
    (fun s => if ns.contains s.seat_number then bookSeatUpdate pn pe s else s) bus.seats i
  rw [hseats, List.getElem?_eq_getElem hi, hget] at h2
  simp only [Option.map_some', Option.some.injEq, hcont, if_true] at h2
  have h3 := congrArg Seat.status h2
  simp [bookSeatUpdate, hstat] at h3

/-- A booking request of existing, available seats succeeds and stores the
conditionally updated document. -/
theorem book_seats_success (bus : Bus) (ns : List String) (pn pe : String)
    (hne : ns ≠ [])
    (hav : ∀ n ∈ ns, ∃ s, findSeat bus.seats n = some s ∧ s.status = SeatStatus.available) :
    book_seats (some bus) ns pn pe =
      ((true, "Booking successful"), some (updateBus bus ns pn pe)) := by
  have hchk := checkSeats_none_of_forall bus.seats ns hav
  obtain ⟨n, hn⟩ := List.exists_mem_of_ne_nil ns hne
  obtain ⟨s, hfind, hstat⟩ := hav n hn
  have hne2 := updateBus_ne bus ns pn pe n hn s hfind hstat
  simp only [book_seats, hchk]
  simp [hne2]

/-- Length of the generated seat list: four per generated row. -/
theorem genRows_length (r : Nat) : (genRows r).length = 4 * r := by
  induction r with
  | zero => rfl
  | succ k ih => simp [genRows, rowSeats, ih]; omega

/-! ### C1 — counter invariant and seat-list length -/

/-- C1 (amended): `available_seats + booked_seats == total_seats` holds after
`create_bus` and is preserved by every `book_seats` call, successful or
failed, which also preserves the seat-list length and the capacity; but
`len(seats) == total_seats` holds after creation only when the seats are
auto-generated from a capacity divisible by four — a caller-supplied seat
list is stored as given, and auto-generation emits `(total_seats / 4) * 4`
seats. -/
theorem c1_invariant :
    (∀ (b : BusCreate) (now : PyDateTime),
        (create_bus b now).available_seats + (create_bus b now).booked_seats
          = ((create_bus b now).total_seats : Int))
  ∧ (∀ (b : BusCreate) (now : PyDateTime),
        b.seats = [] → 4 ∣ b.total_seats →
        (create_bus b now).seats.length = (create_bus b now).total_seats)
  ∧ (∀ (b : BusCreate) (now : PyDateTime),
        b.seats ≠ [] → (create_bus b now).seats = b.seats)
  ∧ (∀ (bus? : Option Bus) (ns : List String) (pn pe : String) (bus' : Bus),
        (book_seats bus? ns pn pe).2 = some bus' →
        ∃ bus, bus? = some bus ∧
          bus'.available_seats + bus'.booked_seats
            = bus.available_seats + bus.booked_seats ∧
          bus'.total_seats = bus.total_seats ∧
          bus'.seats.length = bus.seats.length) := by
  refine ⟨fun b now => by simp [create_bus], ?_, ?_, ?_⟩
  · intro b now hseats hdvd
    simp only [create_bus, hseats, List.isEmpty_nil, if_pos]
    rw [generate_seats, genRows_length]
    exact Nat.mul_div_cancel' hdvd
  · intro b now hseats
    have : b.seats.isEmpty = false := by
      cases hb : b.seats with
      | nil => exact absurd hb hseats
      | cons x xs => rfl
    simp [create_bus, this]
  · intro bus? ns pn pe bus' h
    cases bus? with
    | none => simp [book_seats] at h
    | some bus =>
        refine ⟨bus, rfl, ?_⟩
        cases hc : checkSeats bus.seats ns with
        | some msg =>
            simp only [book_seats, hc] at h
            cases h
            exact ⟨rfl, rfl, rfl⟩
        | none =>
            simp only [book_seats, hc] at h
            cases h
            refine ⟨by simp [updateBus], rfl, by simp [updateBus]⟩

/-- C1 counterexample: creating a trip with capacity 5 and no caller-supplied
seat list stores only `5 / 4 * 4 = 4` seats, so `len(seats) == total_seats`
fails on a trip reachable through `createTrip`. -/
theorem c1_counterexample :
    (create_bus busCreate5 t0).total_seats = 5 ∧
    (create_bus busCreate5 t0).seats.length = 4 ∧
    (create_bus busCreate5 t0).seats.length ≠ (create_bus busCreate5 t0).total_seats := by
  decide

/-- Witness for the amended C1 at a concrete input. -/
theorem c1_witness :
    (create_bus busCreate4 t0).seats.length = (create_bus busCreate4 t0).total_seats :=
  c1_invariant.2.1 busCreate4 t0 rfl (by decide)

/-! ### C5 — success reporting and the zero-modified failure message -/

/-- C5 (code bug witnessed at the failing input): on an empty seat-number
list the pre-check loop passes vacuously, the conditional update modifies
zero documents, and `book_seats` duly reports failure — but the failure value
carries the message "Booking successful" instead of a reason describing the
failure, contradicting the stated propagation policy. -/
theorem c5_zero_modified_message :
    ∀ (bus : Bus) (pn pe : String),
      book_seats (some bus) [] pn pe = ((false, "Booking successful"), some bus) := by
  intro bus pn pe
  have hupd : updateBus bus [] pn pe = bus := by
    cases bus
    simp [updateBus]
  simp only [book_seats, checkSeats]
  simp [hupd]

/-! ### C2 — successful booking frame condition -/

/-- C2: booking a nonempty request of distinct seat numbers whose located
seats are all available succeeds, transitions exactly the requested seats to
booked with the passenger's name and email attached, moves the two counters
by the request size, and leaves every other seat and every other trip field
unchanged. -/
theorem c2_book_available (bus : Bus) (ns : List String) (pn pe : String)
    (hne : ns ≠ []) (hnd : ns.Nodup)
    (hav : ∀ n ∈ ns, ∃ s, findSeat bus.seats n = some s ∧ s.status = SeatStatus.available) :
    ∃ bus',
      book_seats (some bus) ns pn pe = ((true, "Booking successful"), some bus') ∧
      bus'.seats.length = bus.seats.length ∧
      (∀ i, (h : i < bus.seats.length) → (h2 : i < bus'.seats.length) →
        ((bus.seats.get ⟨i, h⟩).seat_number ∈ ns →
            bus'.seats.get ⟨i, h2⟩ =
              { bus.seats.get ⟨i, h⟩ with
                  status := SeatStatus.booked,
                  passenger_name := some pn,
                  passenger_email := some pe }) ∧
        ((bus.seats.get ⟨i, h⟩).seat_number ∉ ns →
            bus'.seats.get ⟨i, h2⟩ = bus.seats.get ⟨i, h⟩)) ∧
      bus'.available_seats = bus.available_seats - ns.length ∧
      bus'.booked_seats = bus.booked_seats + ns.length ∧
      bus'.bus_number = bus.bus_number ∧ bus'.bus_name = bus.bus_name ∧
      bus'.bus_type = bus.bus_type ∧ bus'.source = bus.source ∧
      bus'.destination = bus.destination ∧
      bus'.departure_time = bus.departure_time ∧
      bus'.arrival_time = bus.arrival_time ∧
      bus'.total_seats = bus.total_seats ∧
      bus'.created_at = bus.created_at := by
  refine ⟨updateBus bus ns pn pe, book_seats_success bus ns pn pe hne hav,
    by simp [updateBus], ?_, rfl, rfl, rfl, rfl, rfl, rfl, rfl, rfl, rfl, rfl, rfl⟩
  intro i h h2
  have hget : (updateBus bus ns pn pe).seats.get ⟨i, h2⟩ =
      if ns.contains (bus.seats.get ⟨i, h⟩).seat_number = true
      then bookSeatUpdate pn pe (bus.seats.get ⟨i, h⟩)
      else bus.seats.get ⟨i, h⟩ := by
    simp [updateBus]
  constructor
  · intro hmem
    have hc : ns.contains (bus.seats.get ⟨i, h⟩).seat_number = true :=
      List.elem_eq_true_of_mem hmem
    rw [hget, if_pos hc]
    rfl
  · intro hmem
    have hc : ns.contains (bus.seats.get ⟨i, h⟩).seat_number = false := by
      cases hcc : ns.contains (bus.seats.get ⟨i, h⟩).seat_number with
      | false => rfl
      | true => exact absurd (List.mem_of_elem_eq_true hcc) hmem
    rw [hget, if_neg (by simp only [hc]; exact Bool.false_ne_true)]

/-- Witness for C2 at a concrete input: booking the two available seats "A1"
and "A2" on the generated four-seat trip succeeds. -/
theorem c2_witness :
    (book_seats (some busG4) ["A1", "A2"] "John Doe" "john@example.com").1 =
      (true, "Booking successful") := by
  have hav : ∀ n ∈ (["A1", "A2"] : List String),
      ∃ s, findSeat busG4.seats n = some s ∧ s.status = SeatStatus.available := by
    intro n hn
    simp only [List.mem_cons, List.not_mem_nil, or_false] at hn
    rcases hn with rfl | rfl
    · exact ⟨mkSeat 1 1, by decide, by decide⟩
    · exact ⟨mkSeat 1 2, by decide, by decide⟩
  obtain ⟨bus', hb, -⟩ :=
    c2_book_available busG4 ["A1", "A2"] "John Doe" "john@example.com"
      (by decide) (by decide) hav
  rw [hb]

/-! ### C10 — duplicated seat numbers corrupt the counters -/

/-- C10: a request repeating an available seat number passes the pre-checks,
and the update moves the counters by the full request length rather than by
the number of distinct seats transitioned; concretely, booking "A1" five
times on the four-seat trip succeeds and leaves `available_seats = -1` while
three seats are still in status available. -/
theorem c10_duplicates :
    (∀ (bus : Bus) (ns : List String) (pn pe : String),
        ns ≠ [] → ¬ ns.Nodup →
        (∀ n ∈ ns, ∃ s, findSeat bus.seats n = some s ∧ s.status = SeatStatus.available) →
        checkSeats bus.seats ns = none ∧
        ∃ bus', book_seats (some bus) ns pn pe = ((true, "Booking successful"), some bus') ∧
          bus'.available_seats = bus.available_seats - ns.length ∧
          bus'.booked_seats = bus.booked_seats + ns.length)
  ∧ ((book_seats (some busG4) ["A1", "A1", "A1", "A1", "A1"] "P" "p@e.c").1.1 = true
      ∧ (book_seats (some busG4) ["A1", "A1", "A1", "A1", "A1"] "P" "p@e.c").2.map
          Bus.available_seats = some (-1)
      ∧ (book_seats (some busG4) ["A1", "A1", "A1", "A1", "A1"] "P" "p@e.c").2.map
          (fun b => (b.seats.filter
            (fun s => s.status == SeatStatus.available)).length) = some 3) := by
  constructor
  · intro bus ns pn pe hne _hnd hav
    exact ⟨checkSeats_none_of_forall bus.seats ns hav,
      updateBus bus ns pn pe, book_seats_success bus ns pn pe hne hav, rfl, rfl⟩
  · exact ⟨by decide, by decide, by decide⟩

/-- Witness for C10 at a concrete input: the duplicated request
["A1", "A1"] passes the pre-checks on the generated four-seat trip. -/
theorem c10_witness : checkSeats busG4.seats ["A1", "A1"] = none := by
  have hav : ∀ n ∈ (["A1", "A1"] : List String),
      ∃ s, findSeat busG4.seats n = some s ∧ s.status = SeatStatus.available := by
    intro n hn
    simp only [List.mem_cons, List.not_mem_nil, or_false, or_self] at hn
    subst hn
    exact ⟨mkSeat 1 1, by decide, by decide⟩
  exact (c10_duplicates.1 busG4 ["A1", "A1"] "P" "p@e.c" (by decide) (by decide) hav).1

/-! ### C3 — fail-fast on the first unavailable seat -/

/-- C3 (amended): when every requested seat before position `i` exists and is
available and the seat at position `i` exists but is not available,
`book_seats` fails with a seat-unavailable message naming that seat and
leaves the trip unchanged; the request entries after position `i` are
arbitrary and never examined. -/
theorem c3_first_conflict (bus : Bus) (pre post : List String) (n : String)
    (s : Seat) (pn pe : String)
    (hpre : ∀ m ∈ pre, ∃ t, findSeat bus.seats m = some t ∧ t.status = SeatStatus.available)
    (hfind : findSeat bus.seats n = some s) (hstat : s.status ≠ SeatStatus.available) :
    book_seats (some bus) (pre ++ n :: post) pn pe =
      ((false, "Seat " ++ n ++ " is not available"), some bus) := by
  have h := checkSeats_append_unavailable bus.seats pre post n s hpre hfind hstat
  simp only [book_seats, h]

/-- C3 counterexample: on the trip where "A1" was booked through the public
operations, the request ["B9", "A1"] contains a seat that exists but is not
available ("A1"), yet `book_seats` reports "Seat B9 not found" — a
seat-not-found failure for the earlier missing entry, not the seat-unavailable
failure naming "A1" the claim requires (the state is still unchanged). -/
theorem c3_counterexample :
    (busG4A1.seats.filter
        (fun s => s.seat_number == "A1" && !(s.status == SeatStatus.available))).length = 1 ∧
    book_seats (some busG4A1) ["B9", "A1"] "Jane" "jane@example.com" =
      ((false, "Seat B9 not found"), some busG4A1) ∧
    "Seat B9 not found" ≠ "Seat A1 is not available" := by
  decide

/-- Witness for the amended C3 at a concrete input: requesting the booked
seat "A1" first fails with the seat-unavailable message and no state change,
whatever follows it ("ZZ" here is never examined). -/
theorem c3_witness :
    book_seats (some busG4A1) ("A1" :: ["ZZ"]) "Jane" "jane@example.com" =
      ((false, "Seat A1 is not available"), some busG4A1) := by
  have h := c3_first_conflict busG4A1 [] ["ZZ"] "A1"
    (bookSeatUpdate "John Doe" "john@example.com" (mkSeat 1 1)) "Jane" "jane@example.com"
    (fun m hm => absurd hm (List.not_mem_nil m)) (by decide) (by decide)
  simpa using h

/-! ### C4 — fail-fast on the first missing seat -/

/-- C4 (amended): when every requested seat before position `i` exists and is
available and the number at position `i` does not occur in the trip's seat
list, `book_seats` fails with a seat-not-found message naming that number
and produces no state change — in particular, even though the preceding
seats are valid and available, none of them are booked; the entries after
position `i` are arbitrary and never examined. -/
theorem c4_missing_seat (bus : Bus) (pre post : List String) (n : String)
    (pn pe : String)
    (hpre : ∀ m ∈ pre, ∃ t, findSeat bus.seats m = some t ∧ t.status = SeatStatus.available)
    (hmiss : findSeat bus.seats n = none) :
    book_seats (some bus) (pre ++ n :: post) pn pe =
      ((false, "Seat " ++ n ++ " not found"), some bus) := by
  have h := checkSeats_append_notfound bus.seats pre post n hpre hmiss
  simp only [book_seats, h]

/-- C4 counterexample: the request ["A1", "ZZ"] on the trip where "A1" was
booked contains the number "ZZ", which occurs nowhere in the seat list, yet
`book_seats` reports "Seat A1 is not available" — a seat-unavailable failure
for the earlier conflicting entry, not the seat-not-found failure naming
"ZZ" the claim requires (the state is still unchanged). -/
theorem c4_counterexample :
    busG4A1.seats.all (fun s => s.seat_number != "ZZ") = true ∧
    book_seats (some busG4A1) ["A1", "ZZ"] "Jane" "jane@example.com" =
      ((false, "Seat A1 is not available"), some busG4A1) ∧
    "Seat A1 is not available" ≠ "Seat ZZ not found" := by
  decide

/-- Witness for the amended C4 at a concrete input: requesting the valid,
available seat "A2" followed by the nonexistent "ZZ" fails with the
seat-not-found message and books nothing — the trip is unchanged. -/
theorem c4_witness :
    book_seats (some busG4) (["A2"] ++ "ZZ" :: []) "Jane" "jane@example.com" =
      ((false, "Seat ZZ not found"), some busG4) :=
  c4_missing_seat busG4 ["A2"] [] "ZZ" "Jane" "jane@example.com"
    (fun m hm => by
      simp only [List.mem_cons, List.not_mem_nil, or_false] at hm
      subst hm
      exact ⟨mkSeat 1 2, by decide, by decide⟩)
    (by decide)

/-! ### C7 — the seat layout generator -/

/-- For every row count reachable from a schema-valid capacity (at most 100
seats, hence at most 25 rows), the generated rows have four seats each,
pairwise-distinct seat numbers, and the stated per-index shape. -/
theorem c7_rows : ∀ r, r < 26 →
    (genRows r).length = 4 * r ∧
    ((genRows r).map Seat.seat_number).Nodup ∧
    (∀ i, (h : i < (genRows r).length) →
      ((genRows r).get ⟨i, h⟩).seat_number =
          String.mk [Char.ofNat (65 + i / 4)] ++ toString (i % 4 + 1) ∧
      ((genRows r).get ⟨i, h⟩).seat_type = seat_types.getD (i % 4) "" ∧
      ((genRows r).get ⟨i, h⟩).price = 500 ∧
      ((genRows r).get ⟨i, h⟩).status = SeatStatus.available ∧
      ((genRows r).get ⟨i, h⟩).passenger_name = none ∧
      ((genRows r).get ⟨i, h⟩).passenger_email = none) := by
  decide

/-- C7: for every schema-valid positive capacity, `_generate_seats` emits
exactly `(total_seats / 4) * 4` seats — the full capacity exactly when it is
divisible by four, silently dropping the remainder otherwise — in rows of
four whose numbers take successive letters from 'A' (row `i / 4`) and column
digits 1..4, whose classes follow the `[window, aisle, aisle, window]`
pattern, with pairwise-distinct seat numbers, every seat available at the
constant unit price, and no passenger data. -/
theorem c7_generate_seats (n : Nat) (hpos : 0 < n) (hle : n ≤ 100) :
    (generate_seats n).length = n / 4 * 4 ∧
    (4 ∣ n → (generate_seats n).length = n) ∧
    ((generate_seats n).map Seat.seat_number).Nodup ∧
    (∀ i, (h : i < (generate_seats n).length) →
      ((generate_seats n).get ⟨i, h⟩).seat_number =
          String.mk [Char.ofNat (65 + i / 4)] ++ toString (i % 4 + 1) ∧
      ((generate_seats n).get ⟨i, h⟩).seat_type = seat_types.getD (i % 4) "" ∧
      ((generate_seats n).get ⟨i, h⟩).price = 500 ∧
      ((generate_seats n).get ⟨i, h⟩).status = SeatStatus.available ∧
      ((generate_seats n).get ⟨i, h⟩).passenger_name = none ∧
      ((generate_seats n).get ⟨i, h⟩).passenger_email = none) := by
  have hr : n / 4 < 26 := by omega
  obtain ⟨hl, hnd, hidx⟩ := c7_rows (n / 4) hr
  refine ⟨?_, ?_, hnd, hidx⟩
  · rw [generate_seats, hl]; omega
  · intro hdvd
    rw [generate_seats, hl]
    exact Nat.mul_div_cancel' hdvd

/-- Witness for C7 at a concrete input: eight seats are generated for a
capacity of eight, with distinct numbers. -/
theorem c7_witness :
    (generate_seats 8).length = 8 ∧
    ((generate_seats 8).map Seat.seat_number).Nodup :=
  ⟨(c7_generate_seats 8 (by decide) (by decide)).2.1 (by decide),
   (c7_generate_seats 8 (by decide) (by decide)).2.2.1⟩

/-! ### C6 — route search semantics -/

/-- On a metacharacter-free pattern the anchored case-insensitive regex match
is exactly case-insensitive string equality. -/
theorem regexMatchCI_literal (ps : List Char) :
    ∀ ts : List Char, (∀ c ∈ ps, regexMetachars.contains c = false) →
      (regexMatchCI ps ts = true ↔ ps.map Char.toLower = ts.map Char.toLower) := by
  induction ps with
  | nil =>
      intro ts _
      cases ts with
      | nil => simp [regexMatchCI]
      | cons t ts => simp [regexMatchCI]
  | cons p ps ih =>
      intro ts h
      have hp : ¬ p = '.' := by
        intro hpe
        have hc := h p (List.mem_cons_self p ps)
        rw [hpe] at hc
        exact absurd hc (by decide)
      cases ts with
      | nil => simp [regexMatchCI]
      | cons t ts =>
          have htail := ih ts (fun c hc => h c (List.mem_cons_of_mem p hc))
          simp only [regexMatchCI, charMatchCI, if_neg hp, Bool.and_eq_true,
            List.map_cons, List.cons.injEq, beq_iff_eq, htail]

/-- C6 (amended): for source and destination strings free of regex
metacharacters — where the anchored `$regex` filter the code sends is
equivalent to full PCRE literal matching — `search_buses` returns exactly
the stored trips whose source and destination are case-insensitively equal
to the inputs and whose departure time lies in the half-open window
`[date 00:00, date+1day 00:00)`.  For arbitrary inputs the filter is regex
matching, not exact string matching (see the counterexample). -/
theorem c6_search_metafree (buses : List Bus) (src dst td : String)
    (y m d : Nat) (b : Bus)
    (hs : regexMetaFree src = true) (hd : regexMetaFree dst = true)
    (hp : parseTravelDate td = some (y, m, d)) :
    b ∈ search_buses buses src dst td ↔
      b ∈ buses ∧ ciEq src b.source ∧ ciEq dst b.destination ∧
      dtLe (atMidnight (y, m, d)) b.departure_time = true ∧
      dtLt b.departure_time (atMidnight (nextDay y m d)) = true := by
  have hmeta : ∀ (s : String), regexMetaFree s = true →
      ∀ c ∈ s.toList, regexMetachars.contains c = false := by
    intro s hsf c hc
    have h2 := List.all_eq_true.mp hsf c hc
    cases hcc : regexMetachars.contains c with
    | false => rfl
    | true => rw [hcc] at h2; exact absurd h2 (by decide)
  simp only [search_buses, hp, List.mem_filter, busMatches, Bool.and_eq_true]
  rw [regexMatchCI_literal src.toList b.source.toList (hmeta src hs),
      regexMatchCI_literal dst.toList b.destination.toList (hmeta dst hd)]
  tauto

/-- C6 counterexample: the input source "N.C" is not case-insensitively equal
to the stored source "NYC", yet the search returns the trip, because `.` is a
regex wildcard in the `$regex` filter — exact string matching fails for
arbitrary input strings. -/
theorem c6_counterexample :
    search_buses [busG4] "N.C" "Boston" "2024-01-15" = [busG4] ∧
    ¬ ciEq "N.C" busG4.source := by
  exact ⟨by decide, by decide⟩

/-- Witness for the amended C6 at a concrete input: a case-insensitive exact
route match within the date window is returned. -/
theorem c6_witness :
    busG4 ∈ search_buses [busG4] "nyc" "BOSTON" "2024-01-15" :=
  (c6_search_metafree [busG4] "nyc" "BOSTON" "2024-01-15" 2024 1 15 busG4
      (by decide) (by decide) (by decide)).mpr
    ⟨by decide, by decide, by decide, by decide, by decide⟩

/-! ### C9 — search never errors and degrades to the empty list -/

/-- C9: `search_buses` is a total function into lists of trips; a malformed
travel date (one `strptime` rejects) yields the empty list, and a well-formed
date matching no stored trip also yields the empty list — the two outcomes
are the same value and thus indistinguishable. -/
theorem c9_search_degrade (buses : List Bus) (src dst td : String) :
    (parseTravelDate td = none → search_buses buses src dst td = []) ∧
    (∀ y m d, parseTravelDate td = some (y, m, d) →
       (∀ b ∈ buses,
          busMatches src dst (atMidnight (y, m, d)) (atMidnight (nextDay y m d)) b = false) →
       search_buses buses src dst td = []) := by
  constructor
  · intro h
    simp only [search_buses, h]
  · intro y m d hp hnone
    simp only [search_buses, hp]
    refine List.filter_eq_nil_iff.mpr ?_
    intro b hb
    simp [hnone b hb]

/-- Witness for C9 at concrete inputs: the malformed date "2024-02-30"
(February has no day 30) yields the empty list, and so does a date matching
no stored trip. -/
theorem c9_witness :
    search_buses [busG4] "NYC" "Boston" "2024-02-30" = [] ∧
    search_buses [busG4] "NYC" "Boston" "2025-06-01" = [] :=
  ⟨(c9_search_degrade [busG4] "NYC" "Boston" "2024-02-30").1 (by decide),
   (c9_search_degrade [busG4] "NYC" "Boston" "2025-06-01").2 2025 6 1 (by decide)
     (by decide)⟩

/-! ### C8 — booking orchestration and the total price -/

/-- A successful `book_seats` run has passed the pre-checks and stored the
conditionally updated document. -/
theorem book_seats_success_shape (bus : Bus) (ns : List String) (pn pe : String)
    (h : (book_seats (some bus) ns pn pe).1.1 = true) :
    checkSeats bus.seats ns = none ∧
    book_seats (some bus) ns pn pe =
      ((true, "Booking successful"), some (updateBus bus ns pn pe)) := by
  cases hc : checkSeats bus.seats ns with
  | some msg => simp [book_seats, hc] at h
  | none =>
      have h2 : decide (¬ updateBus bus ns pn pe = bus) = true := by
        simpa [book_seats, hc] using h
      refine ⟨rfl, ?_⟩
      simp [book_seats, hc, h2]

/-- The conditional update changes neither the seat numbers nor the prices,
so the post-update price sum over the requested numbers equals the
pre-update one. -/
theorem filter_price_map (ns : List String) (pn pe : String) (l : List Seat) :
    ((l.map (fun s => if ns.contains s.seat_number then bookSeatUpdate pn pe s else s)).filter
        (fun s => ns.contains s.seat_number)).map Seat.price
      = (l.filter (fun s => ns.contains s.seat_number)).map Seat.price := by
  have h1 : ((fun s => ns.contains s.seat_number) ∘
      (fun s => if ns.contains s.seat_number then bookSeatUpdate pn pe s else s))
      = (fun s : Seat => ns.contains s.seat_number) := by
    funext s
    simp only [Function.comp_apply]
    split <;> rfl
  have h2 : (Seat.price ∘
      (fun s => if ns.contains s.seat_number then bookSeatUpdate pn pe s else s))
      = Seat.price := by
    funext s
    simp only [Function.comp_apply]
    split <;> rfl
  rw [List.filter_map, List.map_map, h1, h2]

/-- C8: whenever the reservation engine reports success, `book_tickets`
returns a confirmed booking carrying the freshly generated identifier and a
total amount equal to the sum of the prices of the trip's seats whose
numbers are in the requested list, and stores the updated trip. -/
theorem c8_book_tickets (bus : Bus) (bid : String) (ns : List String)
    (pn pe pp freshId : String) (now : PyDateTime)
    (h : (book_seats (some bus) ns pn pe).1.1 = true) :
    book_tickets (some bus) bid ns pn pe pp freshId now =
      (Except.ok
        { booking_id := freshId,
          bus_id := bid,
          bus_number := bus.bus_number,
          source := bus.source,
          destination := bus.destination,
          departure_time := bus.departure_time,
          seat_numbers := ns,
          passenger_name := pn,
          passenger_email := pe,
          passenger_phone := pp,
          total_amount :=
            ((bus.seats.filter (fun s => ns.contains s.seat_number)).map Seat.price).sum,
          booking_status := "confirmed",
          booked_at := now },
        some (updateBus bus ns pn pe)) := by
  obtain ⟨hc, heq⟩ := book_seats_success_shape bus ns pn pe h
  simp only [book_tickets, heq]
  have hfields : (updateBus bus ns pn pe).bus_number = bus.bus_number ∧
      (updateBus bus ns pn pe).source = bus.source ∧
      (updateBus bus ns pn pe).destination = bus.destination ∧
      (updateBus bus ns pn pe).departure_time = bus.departure_time :=
    ⟨rfl, rfl, rfl, rfl⟩
  have htotal :
      (((updateBus bus ns pn pe).seats.filter
          (fun s => ns.contains s.seat_number)).map Seat.price).sum
        = ((bus.seats.filter (fun s => ns.contains s.seat_number)).map Seat.price).sum := by
    unfold updateBus
    exact congrArg List.sum (filter_price_map ns pn pe bus.seats)
  rw [hfields.1, hfields.2.1, hfields.2.2.1, hfields.2.2.2, htotal]

/-- Witness for C8 at a concrete input: booking the seats "A1" and "A2" on
the generated four-seat trip (unit price 500) yields a confirmed booking
with total amount 1000. -/
theorem c8_witness :
    (book_tickets (some busG4) "id0" ["A1", "A2"] "John Doe" "john@example.com"
        "+1234567890" "BKG1" t0).1 =
      Except.ok
        { booking_id := "BKG1",
          bus_id := "id0",
          bus_number := "BUS001",
          source := "NYC",
          destination := "Boston",
          departure_time := ⟨2024, 1, 15, 10, 0, 0⟩,
          seat_numbers := ["A1", "A2"],
          passenger_name := "John Doe",
          passenger_email := "john@example.com",
          passenger_phone := "+1234567890",
          total_amount := 1000,
          booking_status := "confirmed",
          booked_at := t0 } := by
  rw [c8_book_tickets busG4 "id0" ["A1", "A2"] "John Doe" "john@example.com"
    "+1234567890" "BKG1" t0 (by decide)]
  simp only [Except.ok.injEq]
  decide

end BusBooking
